import Mathlib

/-!
Shallow embedding of the transport layer, the multi-client orchestrator entry
point, and two codec helpers of the go-eth2-client repository.  HTTP
responses, header maps and the outcomes of external collaborators (the Go
HTTP client, the JSON and YAML encoders) are modelled as explicit inputs;
the control flow of each embedded function follows the Go source line by
line.  Bytes are modelled as natural numbers, machine integers as natural
numbers with explicit bounds.
-/

deriving instance DecidableEq for Except

namespace Eth2Http

/-- Content type of a response payload.
Modelled from the spec: contentType is an element of the set containing
Binary (SSZ), JSON and Unknown; the parser for it lives outside src. -/
inductive ContentType where
  | unknown
  | ssz
  | json
deriving DecidableEq, Repr

/-- Protocol version tag of a payload.
Modelled from the spec: an enumerated tag identifying which versioned
variant of a domain schema the payload uses, or Unknown; the enumeration
itself lives in the spec package outside src.  The zero value of the Go
type is the unknown tag. -/
inductive DataVersion where
  | unknown
  | phase0
  | altair
  | bellatrix
  | capella
  | deneb
deriving DecidableEq, Repr

/-- Modelled from the spec: parsing of the enumerated protocol version tag
from its textual name (the UnmarshalJSON method of the spec package, outside
src); an unrecognised name is a parse failure. -/
def DataVersion.fromName (s : String) : Option DataVersion :=
  if s = "phase0" then some .phase0
  else if s = "altair" then some .altair
  else if s = "bellatrix" then some .bellatrix
  else if s = "capella" then some .capella
  else if s = "deneb" then some .deneb
  else none

/-- Modelled from the spec: ParseFromMediaType (outside src) maps the binary
media type to SSZ and the JSON media type to JSON; any other or unparseable
media type is an error. -/
def ParseFromMediaType (s : String) : Except String ContentType :=
  if s = "application/octet-stream" then .ok .ssz
  else if s = "application/json" then .ok .json
  else .error "unsupported media type"

/-- Errors returned by the transport layer.  httpError embeds the Error
struct of the http package (Method, Endpoint, StatusCode, Data); new embeds
errors.New; wrap embeds errors.Wrap, keeping the message and the cause. -/
inductive GoError where
  | new (msg : String)
  | wrap (msg : String) (cause : GoError)
  | httpError (method : String) (endpoint : String) (statusCode : Nat) (data : List Nat)
deriving DecidableEq, Repr

/-- External-collaborator view of the response body as seen by
encoding/json when unmarshalling into responseMetadata: the body is either
not valid JSON, a JSON document carrying a version field with the given
textual value, or a valid JSON document without a version field (in which
case encoding/json leaves the field at its zero value and succeeds). -/
inductive BodyJSON where
  | invalid
  | withVersion (name : String)
  | withoutVersion
deriving DecidableEq, Repr

/-- Header map of a response, restricted to the two keys the transport layer
reads.  A key maps to none when absent from the map and to some vs when
present with the (possibly empty) list vs of values, mirroring the
comma-ok map access in Go. -/
structure Headers where
  contentType : Option (List String)
  consensusVersion : Option (List String)
deriving DecidableEq, Repr

/-- Outcome of the HTTP round trip performed by client.Do for a GET,
together with the external parses the transport layer consumes: status
code, header map, the outcome of io.ReadAll on the body, and the
encoding/json view of those same body bytes. -/
structure DoResponse where
  statusCode : Nat
  headers : Headers
  bodyRead : Except String (List Nat)
  bodyJSON : BodyJSON
deriving DecidableEq, Repr

/-- The httpResponse struct populated by get2: status code, content type,
consensus version and raw body.  Zero values are unknown tags and the empty
body. -/
structure HttpResponse where
  statusCode : Nat
  contentType : ContentType
  consensusVersion : DataVersion
  body : List Nat
deriving DecidableEq, Repr

/-- Embeds populateContentType: the Content-Type key must be present with
exactly one value, which is then parsed as a media type. -/
def populateContentType (hdrs : Headers) : Except String ContentType :=
  match hdrs.contentType with
  | none => .error "no content type supplied in response"
  | some vs =>
      if vs.length ≠ 1 then .error ("malformed content type: " ++ toString vs.length ++ " entries")
      else match vs with
        | [v] => ParseFromMediaType v
        | _ => .error "unreachable"

/-- Embeds populateConsensusVersion: if the Eth-Consensus-Version key is
absent, the version is read from the JSON body when the content type is
JSON and is an error otherwise; if present, it must hold exactly one value,
which is parsed as a version tag. -/
def populateConsensusVersion (contentType : ContentType) (bodyJSON : BodyJSON)
    (hdrs : Headers) : Except GoError DataVersion :=
  match hdrs.consensusVersion with
  | none =>
      if contentType ≠ ContentType.json then
        .error (.new "no consensus version header")
      else
        match bodyJSON with
        | .invalid => .error (.wrap "no consensus version header and failed to parse response"
            (.new "json unmarshal error"))
        | .withVersion name =>
            match DataVersion.fromName name with
            | some v => .ok v
            | none => .error (.new "unrecognised data version")
        | .withoutVersion => .ok .unknown
  | some vs =>
      if vs.length ≠ 1 then
        .error (.new ("malformed consensus version: " ++ toString vs.length ++ " entries"))
      else
        match vs with
        | [v] =>
            match DataVersion.fromName v with
            | some dv => .ok dv
            | none => .error (.wrap "failed to parse consensus version"
                (.new "unrecognised data version"))
        | _ => .error (.new "unreachable")

/-- Embeds the content-type resolution step of get2: a failure of
populateContentType is absorbed, assuming JSON. -/
def resolvedContentType (hdrs : Headers) : ContentType :=
  match populateContentType hdrs with
  | .ok ct => ct
  | .error _ => ContentType.json

/-- Embeds get2.  The traceEnabled flag stands for whether trace logging is
enabled; get2 logs and records spans but never branches on it.  The doResult
input is the outcome of client.Do. -/
def get2 (endpoint : String) (traceEnabled : Bool)
    (doResult : Except String DoResponse) : Except GoError HttpResponse :=
  let _ := traceEnabled
  match doResult with
  | .error e => .error (.wrap "failed to call GET endpoint" (.new e))
  | .ok resp =>
      if resp.statusCode = 404 then
        .ok { statusCode := 404, contentType := .unknown, consensusVersion := .unknown, body := [] }
      else if resp.statusCode = 204 then
        .ok { statusCode := 204, contentType := .unknown, consensusVersion := .unknown, body := [] }
      else
        match resp.bodyRead with
        | .error e => .error (.wrap "failed to read body" (.new e))
        | .ok body =>
            if resp.statusCode / 100 ≠ 2 then
              .error (.httpError "GET" endpoint resp.statusCode body)
            else
              let contentType := resolvedContentType resp.headers
              match populateConsensusVersion contentType resp.bodyJSON resp.headers with
              | .error e => .error (.wrap "failed to parse consensus version" e)
              | .ok v =>
                  .ok { statusCode := resp.statusCode, contentType := contentType,
                        consensusVersion := v, body := body }

/-- Outcome of client.Do for the legacy get and for post: status code and
the outcome of io.ReadAll on the response body. -/
structure SimpleDoResponse where
  statusCode : Nat
  bodyRead : Except String (List Nat)
deriving DecidableEq, Repr

/-- Embeds get (the legacy GET).  A 404 returns nil for both the reader and
the error, modelled as ok none; a success returns the body bytes.  Logging
never branches on traceEnabled. -/
def get (endpoint : String) (traceEnabled : Bool)
    (doResult : Except String SimpleDoResponse) : Except GoError (Option (List Nat)) :=
  let _ := traceEnabled
  match doResult with
  | .error e => .error (.wrap "failed to call GET endpoint" (.new e))
  | .ok resp =>
      if resp.statusCode = 404 then .ok none
      else
        match resp.bodyRead with
        | .error e => .error (.wrap "failed to read GET response" (.new e))
        | .ok data =>
            if resp.statusCode / 100 ≠ 2 then
              .error (.httpError "GET" endpoint resp.statusCode data)
            else .ok (some data)

/-- Embeds post.  When trace logging is enabled the request body is read
eagerly so it can be logged, and a read failure is an immediate error;
bodyReader is the outcome of io.ReadAll on the request body and doResult the
outcome of client.Do. -/
def post (endpoint : String) (traceEnabled : Bool)
    (bodyReader : Except String (List Nat))
    (doResult : Except String SimpleDoResponse) : Except GoError (List Nat) :=
  let rest : Except GoError (List Nat) :=
    match doResult with
    | .error e => .error (.wrap "failed to call POST endpoint" (.new e))
    | .ok resp =>
        match resp.bodyRead with
        | .error e => .error (.wrap "failed to read POST response" (.new e))
        | .ok data =>
            if resp.statusCode / 100 ≠ 2 then
              .error (.httpError "POST" endpoint resp.statusCode data)
            else .ok data
  if traceEnabled then
    match bodyReader with
    | .error _ => .error (.new "failed to read request body")
    | .ok _ => rest
  else rest

end Eth2Http

namespace Eth2Multi

/-- Outcome of the orchestrator dispatch doCall as consumed by BeaconState.
Modelled from the spec: doCall itself lives outside src; its result is
either an error, or a value pointer that is nil exactly when every member
reported the state as not available (NotFound), mirroring the nil-result
nil-error convention of the Go code. -/
def DoCallResult (α : Type) : Type := Except Eth2Http.GoError (Option α)

/-- Embeds the multi-client BeaconState: an error from doCall is returned
as an error, a nil result is returned as nil with no error, and a value is
returned as that value. -/
def BeaconState (α : Type) (doCallResult : DoCallResult α) : Except Eth2Http.GoError (Option α) :=
  match doCallResult with
  | .error e => .error e
  | .ok none => .ok none
  | .ok (some v) => .ok (some v)

end Eth2Multi

namespace Deneb

/-- The BlindedBlobSidecar domain type.  Byte arrays of the Go struct are
byte lists (BlockRoot, BlockParentRoot and BlobRoot of length 32,
KzgCommitment and KzgProof of length 48) and the three uint64 fields are
naturals below 2 to the 64. -/
structure BlindedBlobSidecar where
  blockRoot : List Nat
  index : Nat
  slot : Nat
  blockParentRoot : List Nat
  proposerIndex : Nat
  blobRoot : List Nat
  kzgCommitment : List Nat
  kzgProof : List Nat
deriving DecidableEq, Repr

/-- Well-formedness of a BlindedBlobSidecar value: the fixed byte-array
lengths of the Go struct and the uint64 bounds. -/
def BlindedBlobSidecar.Valid (b : BlindedBlobSidecar) : Prop :=
  b.blockRoot.length = 32 ∧ b.index < 2 ^ 64 ∧ b.slot < 2 ^ 64 ∧
  b.blockParentRoot.length = 32 ∧ b.proposerIndex < 2 ^ 64 ∧
  b.blobRoot.length = 32 ∧ b.kzgCommitment.length = 48 ∧ b.kzgProof.length = 48

instance (b : BlindedBlobSidecar) : Decidable b.Valid := by
  unfold BlindedBlobSidecar.Valid; infer_instance

/-- The eight bytes of a uint64 in little-endian order, each position
holding the corresponding base-256 digit. -/
def uint64Bytes (n : Nat) : List Nat :=
  [n % 256, n / 256 % 256, n / 65536 % 256, n / 16777216 % 256,
   n / 4294967296 % 256, n / 1099511627776 % 256, n / 281474976710656 % 256,
   n / 72057594037927936 % 256]

/-- Embeds ssz.MarshalUint64: append the eight bytes of a uint64 in
little-endian order. -/
def marshalUint64 (dst : List Nat) (n : Nat) : List Nat :=
  dst ++ uint64Bytes n

/-- Embeds ssz.UnmarshallUint64: read eight bytes in little-endian order. -/
def unmarshallUint64 (bs : List Nat) : Nat :=
  bs.getD 0 0 + bs.getD 1 0 * 256 + bs.getD 2 0 * 65536 + bs.getD 3 0 * 16777216 +
  bs.getD 4 0 * 4294967296 + bs.getD 5 0 * 1099511627776 +
  bs.getD 6 0 * 281474976710656 + bs.getD 7 0 * 72057594037927936

/-- Go slice expression buf[i:j] on a byte list. -/
def goSlice (buf : List Nat) (i j : Nat) : List Nat :=
  (buf.drop i).take (j - i)

/-- Embeds MarshalSSZTo: append the eight fields to the target buffer in
field order. -/
def BlindedBlobSidecar.marshalSSZTo (b : BlindedBlobSidecar) (buf : List Nat) : List Nat :=
  let dst := buf ++ b.blockRoot
  let dst := marshalUint64 dst b.index
  let dst := marshalUint64 dst b.slot
  let dst := dst ++ b.blockParentRoot
  let dst := marshalUint64 dst b.proposerIndex
  let dst := dst ++ b.blobRoot
  let dst := dst ++ b.kzgCommitment
  dst ++ b.kzgProof

/-- Embeds MarshalSSZ, which marshals into a fresh buffer. -/
def BlindedBlobSidecar.marshalSSZ (b : BlindedBlobSidecar) : List Nat :=
  b.marshalSSZTo []

/-- Embeds UnmarshalSSZ on a receiver b: a buffer whose size is not 216
returns ssz.ErrSize and leaves the receiver unchanged; otherwise every field
is overwritten from its fixed offset.  The first component is the receiver
state after the call and the second the returned error, if any. -/
def BlindedBlobSidecar.unmarshalSSZ (b : BlindedBlobSidecar) (buf : List Nat) :
    BlindedBlobSidecar × Option String :=
  if buf.length ≠ 216 then (b, some "incorrect size")
  else
    ({ blockRoot := goSlice buf 0 32,
       index := unmarshallUint64 (goSlice buf 32 40),
       slot := unmarshallUint64 (goSlice buf 40 48),
       blockParentRoot := goSlice buf 48 80,
       proposerIndex := unmarshallUint64 (goSlice buf 80 88),
       blobRoot := goSlice buf 88 120,
       kzgCommitment := goSlice buf 120 168,
       kzgProof := goSlice buf 168 216 }, none)

/-- Embeds bytes.ReplaceAll specialised to the single-byte patterns used by
MarshalYAML (old and new are one byte each), which replaces every
occurrence of the old byte. -/
def replaceAllByte (bs : List Nat) (old new : Nat) : List Nat :=
  bs.map fun b => if b = old then new else b

/-- Embeds BlockContents.MarshalYAML: the outcome of the external YAML
encoder on the wrapped struct is given as input; on success every double
quote byte (0x22) is replaced by a single quote byte (0x27) before the
result is returned. -/
def BlockContents.marshalYAML (yamlResult : Except String (List Nat)) :
    Except String (List Nat) :=
  match yamlResult with
  | .error e => .error e
  | .ok bs => .ok (replaceAllByte bs 34 39)

end Deneb

open Eth2Http Eth2Multi Deneb

/-- Helper: evaluation of get2 on a 2xx response whose body read and
version resolution succeed. -/
theorem get2_eval_success (endpoint : String) (t : Bool) (resp : DoResponse)
    (body : List Nat) (v : DataVersion)
    (h2 : resp.statusCode / 100 = 2) (h204 : resp.statusCode ≠ 204)
    (hb : resp.bodyRead = .ok body)
    (hv : populateConsensusVersion (resolvedContentType resp.headers) resp.bodyJSON resp.headers
      = .ok v) :
    get2 endpoint t (.ok resp)
      = .ok ⟨resp.statusCode, resolvedContentType resp.headers, v, body⟩ := by
  have h404 : resp.statusCode ≠ 404 := by omega
  simp [get2, h404, h204, hb, h2, hv]

/-- Helper: evaluation of get2 on a 2xx response whose body read succeeds
but whose version resolution fails. -/
theorem get2_eval_version_error (endpoint : String) (t : Bool) (resp : DoResponse)
    (body : List Nat) (e : GoError)
    (h2 : resp.statusCode / 100 = 2) (h204 : resp.statusCode ≠ 204)
    (hb : resp.bodyRead = .ok body)
    (hv : populateConsensusVersion (resolvedContentType resp.headers) resp.bodyJSON resp.headers
      = .error e) :
    get2 endpoint t (.ok resp) = .error (.wrap "failed to parse consensus version" e) := by
  have h404 : resp.statusCode ≠ 404 := by omega
  simp [get2, h404, h204, hb, h2, hv]

/-- C1: get2 classifies the HTTP status of a GET response as follows: 404
yields an envelope with the not-found status code, empty payload and no
error; 204 yields the no-content envelope with empty payload and no error;
a 2xx status is never turned into a call error, and when the body read and
the decode stages succeed it yields a success envelope carrying the body;
any other status yields a call error carrying the method, the endpoint
path, the status code and the raw response body. -/
theorem get2_status_classification (endpoint : String) (t : Bool) (resp : DoResponse) :
    (resp.statusCode = 404 →
      get2 endpoint t (.ok resp) = .ok ⟨404, .unknown, .unknown, []⟩) ∧
    (resp.statusCode = 204 →
      get2 endpoint t (.ok resp) = .ok ⟨204, .unknown, .unknown, []⟩) ∧
    (resp.statusCode / 100 = 2 →
      ∀ m ep sc d, get2 endpoint t (.ok resp) ≠ .error (.httpError m ep sc d)) ∧
    (∀ body v, resp.statusCode / 100 = 2 → resp.statusCode ≠ 204 →
      resp.bodyRead = .ok body →
      populateConsensusVersion (resolvedContentType resp.headers) resp.bodyJSON resp.headers
        = .ok v →
      get2 endpoint t (.ok resp)
        = .ok ⟨resp.statusCode, resolvedContentType resp.headers, v, body⟩) ∧
    (∀ body, resp.statusCode ≠ 404 → resp.statusCode / 100 ≠ 2 →
      resp.bodyRead = .ok body →
      get2 endpoint t (.ok resp) = .error (.httpError "GET" endpoint resp.statusCode body)) := by
  refine ⟨?_, ?_, ?_, ?_, ?_⟩
  · intro h
    simp [get2, h]
  · intro h
    have h404 : resp.statusCode ≠ 404 := by omega
    simp [get2, h, h404]
  · intro h2 m ep sc d
    have h404 : resp.statusCode ≠ 404 := by omega
    by_cases h204 : resp.statusCode = 204
    · simp [get2, h204, h404]
    · cases hb : resp.bodyRead with
      | error e => simp [get2, h404, h204, hb]
      | ok body =>
          cases hv : populateConsensusVersion (resolvedContentType resp.headers)
              resp.bodyJSON resp.headers with
          | error e => simp [get2, h404, h204, hb, h2, hv]
          | ok v => simp [get2, h404, h204, hb, h2, hv]
  · intro body v h2 h204 hb hv
    exact get2_eval_success endpoint t resp body v h2 h204 hb hv
  · intro body h404 h2 hb
    have h204 : resp.statusCode ≠ 204 := by omega
    simp [get2, h404, h204, hb, h2]

/-- Witness for C1: the four outcome shapes at concrete responses. -/
theorem get2_status_classification_witness :
    (get2 "/e" true (.ok ⟨404, ⟨none, none⟩, .ok [], .invalid⟩)
      = .ok ⟨404, .unknown, .unknown, []⟩) ∧
    (get2 "/e" true (.ok ⟨204, ⟨none, none⟩, .ok [], .invalid⟩)
      = .ok ⟨204, .unknown, .unknown, []⟩) ∧
    (get2 "/e" true (.ok ⟨200, ⟨some ["application/json"], some ["deneb"]⟩, .ok [1, 2],
        .withoutVersion⟩)
      = .ok ⟨200, .json, .deneb, [1, 2]⟩) ∧
    (get2 "/e" true (.ok ⟨500, ⟨none, none⟩, .ok [7], .invalid⟩)
      = .error (.httpError "GET" "/e" 500 [7])) := by
  refine ⟨?_, ?_, ?_, ?_⟩
  · exact (get2_status_classification "/e" true _).1 rfl
  · exact (get2_status_classification "/e" true _).2.1 rfl
  · exact (get2_status_classification "/e" true _).2.2.2.1 [1, 2] .deneb (by decide)
      (by decide) rfl (by decide)
  · exact (get2_status_classification "/e" true _).2.2.2.2 [7] (by decide) (by decide) rfl

/-- C2 counterexample: a 200 response whose Content-Type header holds two
values is malformed, so populateContentType fails, yet get2 does not fail
the call: it assumes JSON and returns a success envelope. -/
theorem get2_malformed_content_type_does_not_fail :
    (populateContentType ⟨some ["application/json", "application/json"], some ["deneb"]⟩).isOk
      = false ∧
    get2 "/e" true
        (.ok ⟨200, ⟨some ["application/json", "application/json"], some ["deneb"]⟩, .ok [],
          .invalid⟩)
      = .ok ⟨200, .json, .deneb, []⟩ := by
  constructor
  · rfl
  · rfl

/-- C2 amended: for every 2xx GET response, any failure of content-type
resolution — absent header, zero or multiple values, or unparseable media
type — defaults the content type to JSON without failing the call; the
malformed-header case is not a hard error. -/
theorem get2_content_type_failure_defaults_to_json (endpoint : String) (t : Bool)
    (resp : DoResponse) (e : String) (body : List Nat) (v : DataVersion)
    (hct : populateContentType resp.headers = .error e)
    (h2 : resp.statusCode / 100 = 2) (h204 : resp.statusCode ≠ 204)
    (hb : resp.bodyRead = .ok body)
    (hv : populateConsensusVersion .json resp.bodyJSON resp.headers = .ok v) :
    resolvedContentType resp.headers = .json ∧
    get2 endpoint t (.ok resp) = .ok ⟨resp.statusCode, .json, v, body⟩ := by
  have hres : resolvedContentType resp.headers = .json := by
    simp [resolvedContentType, hct]
  refine ⟨hres, ?_⟩
  have := get2_eval_success endpoint t resp body v h2 h204 hb (by rw [hres]; exact hv)
  rwa [hres] at this

/-- Witness for C2 amended: a 200 response with no Content-Type header at
all resolves to JSON and succeeds. -/
theorem get2_content_type_failure_defaults_to_json_witness :
    resolvedContentType ⟨none, some ["capella"]⟩ = .json ∧
    get2 "/e" false (.ok ⟨200, ⟨none, some ["capella"]⟩, .ok [9], .invalid⟩)
      = .ok ⟨200, .json, .capella, [9]⟩ :=
  get2_content_type_failure_defaults_to_json "/e" false
    ⟨200, ⟨none, some ["capella"]⟩, .ok [9], .invalid⟩
    "no content type supplied in response" [9] .capella rfl (by decide) (by decide) rfl
    (by decide)

/-- C3 counterexample: a 200 JSON response without the consensus-version
header whose body is valid JSON with no version field does not fail with a
decode error; the version resolves to the zero value Unknown and get2
returns a success envelope. -/
theorem get2_json_body_without_version_field_succeeds :
    populateConsensusVersion .json .withoutVersion ⟨some ["application/json"], none⟩
      = .ok .unknown ∧
    get2 "/e" true
        (.ok ⟨200, ⟨some ["application/json"], none⟩, .ok [123, 125], .withoutVersion⟩)
      = .ok ⟨200, .json, .unknown, [123, 125]⟩ := by
  constructor
  · rfl
  · rfl

/-- C3 amended: for a JSON 2xx response lacking the consensus-version
header, the protocol version is taken from the version field of the JSON
payload when that field is present; when the payload parses as JSON but
carries no version field, resolution succeeds with the zero value Unknown
rather than failing; resolution fails with a decode error only when the
payload does not parse as JSON. -/
theorem populate_consensus_version_json_body_fallback (hdrs : Headers)
    (h : hdrs.consensusVersion = none) :
    (∀ name v, DataVersion.fromName name = some v →
      populateConsensusVersion .json (.withVersion name) hdrs = .ok v) ∧
    populateConsensusVersion .json .withoutVersion hdrs = .ok .unknown ∧
    populateConsensusVersion .json .invalid hdrs
      = .error (.wrap "no consensus version header and failed to parse response"
          (.new "json unmarshal error")) := by
  refine ⟨?_, ?_, ?_⟩
  · intro name v hv
    simp [populateConsensusVersion, h, hv]
  · simp [populateConsensusVersion, h]
  · simp [populateConsensusVersion, h]

/-- Witness for C3 amended: the three payload shapes at a concrete header
map lacking the version key. -/
theorem populate_consensus_version_json_body_fallback_witness :
    populateConsensusVersion .json (.withVersion "deneb") ⟨none, none⟩ = .ok .deneb ∧
    populateConsensusVersion .json .withoutVersion ⟨none, none⟩ = .ok .unknown ∧
    populateConsensusVersion .json .invalid ⟨none, none⟩
      = .error (.wrap "no consensus version header and failed to parse response"
          (.new "json unmarshal error")) := by
  have T := populate_consensus_version_json_body_fallback ⟨none, none⟩ rfl
  exact ⟨T.1 "deneb" .deneb rfl, T.2.1, T.2.2⟩

/-- C4: a 2xx response whose resolved content type is not JSON and which
lacks the consensus-version header makes version resolution fail with a
decode error, and get2 returns that error instead of assigning any default
version. -/
theorem get2_binary_without_version_header_errors (endpoint : String) (t : Bool)
    (resp : DoResponse) (body : List Nat)
    (hct : resolvedContentType resp.headers ≠ .json)
    (hhdr : resp.headers.consensusVersion = none)
    (h2 : resp.statusCode / 100 = 2) (h204 : resp.statusCode ≠ 204)
    (hb : resp.bodyRead = .ok body) :
    get2 endpoint t (.ok resp)
      = .error (.wrap "failed to parse consensus version"
          (.new "no consensus version header")) := by
  apply get2_eval_version_error endpoint t resp body _ h2 h204 hb
  simp [populateConsensusVersion, hhdr, hct]

/-- Witness for C4: a 200 octet-stream response with no version header. -/
theorem get2_binary_without_version_header_errors_witness :
    get2 "/e" true (.ok ⟨200, ⟨some ["application/octet-stream"], none⟩, .ok [1], .invalid⟩)
      = .error (.wrap "failed to parse consensus version"
          (.new "no consensus version header")) :=
  get2_binary_without_version_header_errors "/e" true
    ⟨200, ⟨some ["application/octet-stream"], none⟩, .ok [1], .invalid⟩ [1]
    (by decide) rfl (by decide) (by decide) rfl

/-- C5: when the consensus-version header is present with exactly one
parseable value, the version is taken from that header for every content
type and every body, so the body is never consulted, and the success
envelope carries the header version. -/
theorem get2_version_header_wins (endpoint : String) (t : Bool) (resp : DoResponse)
    (body : List Nat) (name : String) (v : DataVersion)
    (hhdr : resp.headers.consensusVersion = some [name])
    (hp : DataVersion.fromName name = some v)
    (h2 : resp.statusCode / 100 = 2) (h204 : resp.statusCode ≠ 204)
    (hb : resp.bodyRead = .ok body) :
    (∀ ct bj, populateConsensusVersion ct bj resp.headers = .ok v) ∧
    get2 endpoint t (.ok resp)
      = .ok ⟨resp.statusCode, resolvedContentType resp.headers, v, body⟩ := by
  have hpv : ∀ ct bj, populateConsensusVersion ct bj resp.headers = .ok v := by
    intro ct bj
    simp [populateConsensusVersion, hhdr, hp]
  exact ⟨hpv, get2_eval_success endpoint t resp body v h2 h204 hb (hpv _ _)⟩

/-- Witness for C5: a binary 200 response whose version header says
bellatrix resolves to bellatrix, with a body whose JSON view is invalid. -/
theorem get2_version_header_wins_witness :
    populateConsensusVersion .ssz .invalid
        ⟨some ["application/octet-stream"], some ["bellatrix"]⟩ = .ok .bellatrix ∧
    get2 "/e" true
        (.ok ⟨200, ⟨some ["application/octet-stream"], some ["bellatrix"]⟩, .ok [5], .invalid⟩)
      = .ok ⟨200, .ssz, .bellatrix, [5]⟩ := by
  have T := get2_version_header_wins "/e" true
    ⟨200, ⟨some ["application/octet-stream"], some ["bellatrix"]⟩, .ok [5], .invalid⟩
    [5] "bellatrix" .bellatrix rfl rfl (by decide) (by decide) rfl
  exact ⟨T.1 .ssz .invalid, T.2⟩

/-- C6: post turns every non-2xx response status, 404 included, into a call
error carrying the method, the endpoint, the status code and the raw body;
no status is mapped to a non-error not-found outcome. -/
theorem post_non_2xx_always_call_error (endpoint : String) (t : Bool)
    (reqBody : List Nat) (resp : SimpleDoResponse) (data : List Nat)
    (hb : resp.bodyRead = .ok data) (hs : resp.statusCode / 100 ≠ 2) :
    post endpoint t (.ok reqBody) (.ok resp)
      = .error (.httpError "POST" endpoint resp.statusCode data) := by
  cases t <;> simp [post, hb, hs]

/-- Witness for C6: a 404 POST response is a call error. -/
theorem post_non_2xx_always_call_error_witness :
    post "/e" true (.ok [1]) (.ok ⟨404, .ok [2]⟩)
      = .error (.httpError "POST" "/e" 404 [2]) :=
  post_non_2xx_always_call_error "/e" true [1] ⟨404, .ok [2]⟩ [2] rfl (by decide)

/-- C8: when the orchestrator dispatch reports the requested state as not
available, BeaconState returns nil with no error; more generally it passes
every dispatch outcome through unchanged, so NotFound is never coerced into
an error. -/
theorem beacon_state_not_found_returns_nil_without_error :
    BeaconState (List Nat) (.ok none) = .ok none ∧
    ∀ r : DoCallResult (List Nat), BeaconState (List Nat) r = r := by
  refine ⟨rfl, fun r => ?_⟩
  cases r with
  | error e => rfl
  | ok o => cases o <;> rfl

/-- C9 counterexample: with a request body reader that fails, the result of
post differs between a trace-enabled and a trace-disabled run, so logging
affects the returned value. -/
theorem post_trace_flag_changes_result :
    post "/e" true (.error "read failure") (.error "connection refused")
      ≠ post "/e" false (.error "read failure") (.error "connection refused") := by
  decide

/-- C9 amended: get and get2 return the same result whether or not trace
logging is enabled, and so does post whenever reading the request body
succeeds; only a failing POST body reader makes the trace-enabled run
return a different error from the trace-disabled run. -/
theorem trace_logging_does_not_affect_results (endpoint : String) (t1 t2 : Bool) :
    (∀ doResult, get endpoint t1 doResult = get endpoint t2 doResult) ∧
    (∀ doResult, get2 endpoint t1 doResult = get2 endpoint t2 doResult) ∧
    (∀ reqBody doResult,
      post endpoint t1 (.ok reqBody) doResult = post endpoint t2 (.ok reqBody) doResult) := by
  refine ⟨fun _ => rfl, fun _ => rfl, fun b d => ?_⟩
  cases t1 <;> cases t2 <;> rfl

/-- C10: whenever MarshalYAML succeeds, its output contains no double-quote
byte, every double quote of the underlying encoder having been replaced by
a single quote. -/
theorem marshal_yaml_output_has_no_double_quote (y : Except String (List Nat))
    (out : List Nat) (h : BlockContents.marshalYAML y = .ok out) : 34 ∉ out := by
  cases y with
  | error e => simp [BlockContents.marshalYAML] at h
  | ok bs =>
      simp [BlockContents.marshalYAML] at h
      subst h
      intro hmem
      simp only [replaceAllByte, List.mem_map] at hmem
      obtain ⟨b, _, hb⟩ := hmem
      split at hb <;> omega

/-- Witness for C10: an encoder output holding a double quote comes back
with it replaced. -/
theorem marshal_yaml_output_has_no_double_quote_witness :
    (34 : Nat) ∉ ([39, 1] : List Nat) :=
  marshal_yaml_output_has_no_double_quote (.ok [34, 1]) [39, 1] rfl

/-- Helper: the little-endian byte encoding of a uint64 has eight bytes. -/
theorem length_uint64Bytes (n : Nat) : (uint64Bytes n).length = 8 := rfl

/-- Helper: reading back the little-endian bytes of a uint64 recovers it. -/
theorem unmarshall_uint64Bytes (n : Nat) (h : n < 2 ^ 64) :
    unmarshallUint64 (uint64Bytes n) = n := by
  simp only [uint64Bytes, unmarshallUint64, List.getD_cons_zero, List.getD_cons_succ]
  omega

/-- Helper: a Go slice of the first n bytes of a buffer starting with a
block of length n is that block. -/
theorem goSlice_first (xs ys : List Nat) (n : Nat) (h : xs.length = n) :
    goSlice (xs ++ ys) 0 n = xs := by
  simp only [goSlice, List.drop_zero, Nat.sub_zero]
  exact List.take_left' h

/-- Helper: a Go slice aligned with a middle block of the buffer is that
block. -/
theorem goSlice_at (pre xs ys : List Nat) (i j : Nat)
    (hi : pre.length = i) (hx : xs.length = j - i) :
    goSlice (pre ++ (xs ++ ys)) i j = xs := by
  simp only [goSlice]
  rw [List.drop_left' hi]
  exact List.take_left' hx

/-- Helper: a Go slice aligned with the final block of the buffer is that
block. -/
theorem goSlice_last (pre xs : List Nat) (i j : Nat)
    (hi : pre.length = i) (hx : xs.length = j - i) :
    goSlice (pre ++ xs) i j = xs := by
  simp only [goSlice]
  rw [List.drop_left' hi, ← hx, List.take_length]

/-- C7: UnmarshalSSZ applied to MarshalSSZ of a well-formed
BlindedBlobSidecar overwrites any receiver with an equal value and returns
no error, and on a buffer whose length is not 216 it returns the size error
and leaves the receiver entirely unmodified. -/
theorem blinded_blob_sidecar_ssz_roundtrip (v b0 : BlindedBlobSidecar) (buf : List Nat)
    (hv : v.Valid) :
    b0.unmarshalSSZ v.marshalSSZ = (v, none) ∧
    (buf.length ≠ 216 → b0.unmarshalSSZ buf = (b0, some "incorrect size")) := by
  refine ⟨?_, fun hlen => by simp [BlindedBlobSidecar.unmarshalSSZ, hlen]⟩
  obtain ⟨br, idx, sl, bpr, pidx, blr, kc, kp⟩ := v
  simp only [BlindedBlobSidecar.Valid] at hv
  obtain ⟨h1, h2, h3, h4, h5, h6, h7, h8⟩ := hv
  have hm : BlindedBlobSidecar.marshalSSZ ⟨br, idx, sl, bpr, pidx, blr, kc, kp⟩
      = br ++ (uint64Bytes idx ++ (uint64Bytes sl ++ (bpr ++ (uint64Bytes pidx
          ++ (blr ++ (kc ++ kp)))))) := by
    simp [BlindedBlobSidecar.marshalSSZ, BlindedBlobSidecar.marshalSSZTo, marshalUint64,
      List.append_assoc]
  have hL : (BlindedBlobSidecar.marshalSSZ ⟨br, idx, sl, bpr, pidx, blr, kc, kp⟩).length
      = 216 := by
    rw [hm]
    simp [List.length_append, h1, h4, h6, h7, h8, length_uint64Bytes]
  have hm40 : BlindedBlobSidecar.marshalSSZ ⟨br, idx, sl, bpr, pidx, blr, kc, kp⟩
      = (br ++ uint64Bytes idx) ++ (uint64Bytes sl ++ (bpr ++ (uint64Bytes pidx
          ++ (blr ++ (kc ++ kp))))) := by
    rw [hm]; simp [List.append_assoc]
  have hm48 : BlindedBlobSidecar.marshalSSZ ⟨br, idx, sl, bpr, pidx, blr, kc, kp⟩
      = ((br ++ uint64Bytes idx) ++ uint64Bytes sl) ++ (bpr ++ (uint64Bytes pidx
          ++ (blr ++ (kc ++ kp)))) := by
    rw [hm]; simp [List.append_assoc]
  have hm80 : BlindedBlobSidecar.marshalSSZ ⟨br, idx, sl, bpr, pidx, blr, kc, kp⟩
      = (((br ++ uint64Bytes idx) ++ uint64Bytes sl) ++ bpr) ++ (uint64Bytes pidx
          ++ (blr ++ (kc ++ kp))) := by
    rw [hm]; simp [List.append_assoc]
  have hm88 : BlindedBlobSidecar.marshalSSZ ⟨br, idx, sl, bpr, pidx, blr, kc, kp⟩
      = ((((br ++ uint64Bytes idx) ++ uint64Bytes sl) ++ bpr) ++ uint64Bytes pidx)
          ++ (blr ++ (kc ++ kp)) := by
    rw [hm]; simp [List.append_assoc]
  have hm120 : BlindedBlobSidecar.marshalSSZ ⟨br, idx, sl, bpr, pidx, blr, kc, kp⟩
      = (((((br ++ uint64Bytes idx) ++ uint64Bytes sl) ++ bpr) ++ uint64Bytes pidx)
          ++ blr) ++ (kc ++ kp) := by
    rw [hm]; simp [List.append_assoc]
  have hm168 : BlindedBlobSidecar.marshalSSZ ⟨br, idx, sl, bpr, pidx, blr, kc, kp⟩
      = ((((((br ++ uint64Bytes idx) ++ uint64Bytes sl) ++ bpr) ++ uint64Bytes pidx)
          ++ blr) ++ kc) ++ kp := by
    rw [hm]; simp [List.append_assoc]
  have len40 : (br ++ uint64Bytes idx).length = 40 := by
    simp [List.length_append, h1, length_uint64Bytes]
  have len48 : ((br ++ uint64Bytes idx) ++ uint64Bytes sl).length = 48 := by
    simp [List.length_append, h1, length_uint64Bytes]
  have len80 : (((br ++ uint64Bytes idx) ++ uint64Bytes sl) ++ bpr).length = 80 := by
    simp [List.length_append, h1, h4, length_uint64Bytes]
  have len88 : ((((br ++ uint64Bytes idx) ++ uint64Bytes sl) ++ bpr)
      ++ uint64Bytes pidx).length = 88 := by
    simp [List.length_append, h1, h4, length_uint64Bytes]
  have len120 : (((((br ++ uint64Bytes idx) ++ uint64Bytes sl) ++ bpr)
      ++ uint64Bytes pidx) ++ blr).length = 120 := by
    simp [List.length_append, h1, h4, h6, length_uint64Bytes]
  have len168 : ((((((br ++ uint64Bytes idx) ++ uint64Bytes sl) ++ bpr)
      ++ uint64Bytes pidx) ++ blr) ++ kc).length = 168 := by
    simp [List.length_append, h1, h4, h6, h7, length_uint64Bytes]
  simp only [BlindedBlobSidecar.unmarshalSSZ]
  rw [if_neg (by simp [hL])]
  simp only [Prod.mk.injEq, BlindedBlobSidecar.mk.injEq]
  refine ⟨⟨?_, ?_, ?_, ?_, ?_, ?_, ?_, ?_⟩, trivial⟩
  · rw [hm]
    exact goSlice_first br _ 32 h1
  · rw [hm, goSlice_at br (uint64Bytes idx) _ 32 40 h1 rfl]
    exact unmarshall_uint64Bytes idx h2
  · rw [hm40, goSlice_at _ (uint64Bytes sl) _ 40 48 len40 rfl]
    exact unmarshall_uint64Bytes sl h3
  · rw [hm48]
    exact goSlice_at _ bpr _ 48 80 len48 (by omega)
  · rw [hm80, goSlice_at _ (uint64Bytes pidx) _ 80 88 len80 rfl]
    exact unmarshall_uint64Bytes pidx h5
  · rw [hm88]
    exact goSlice_at _ blr _ 88 120 len88 (by omega)
  · rw [hm120]
    exact goSlice_at _ kc _ 120 168 len120 (by omega)
  · rw [hm168]
    exact goSlice_last _ kp 168 216 len168 (by omega)

/-- Witness for C7: a concrete sidecar round-trips over any receiver, and a
three-byte buffer is rejected with the receiver unchanged. -/
theorem blinded_blob_sidecar_ssz_roundtrip_witness :
    BlindedBlobSidecar.unmarshalSSZ
        ⟨List.replicate 32 0, 0, 0, List.replicate 32 0, 0, List.replicate 32 0,
          List.replicate 48 0, List.replicate 48 0⟩
        (BlindedBlobSidecar.marshalSSZ
          ⟨List.replicate 32 1, 3, 4, List.replicate 32 2, 5, List.replicate 32 6,
            List.replicate 48 7, List.replicate 48 8⟩)
      = (⟨List.replicate 32 1, 3, 4, List.replicate 32 2, 5, List.replicate 32 6,
          List.replicate 48 7, List.replicate 48 8⟩, none) ∧
    BlindedBlobSidecar.unmarshalSSZ
        ⟨List.replicate 32 0, 0, 0, List.replicate 32 0, 0, List.replicate 32 0,
          List.replicate 48 0, List.replicate 48 0⟩ [1, 2, 3]
      = (⟨List.replicate 32 0, 0, 0, List.replicate 32 0, 0, List.replicate 32 0,
          List.replicate 48 0, List.replicate 48 0⟩, some "incorrect size") := by
  have T := blinded_blob_sidecar_ssz_roundtrip
    ⟨List.replicate 32 1, 3, 4, List.replicate 32 2, 5, List.replicate 32 6,
      List.replicate 48 7, List.replicate 48 8⟩
    ⟨List.replicate 32 0, 0, 0, List.replicate 32 0, 0, List.replicate 32 0,
      List.replicate 48 0, List.replicate 48 0⟩
    [1, 2, 3] (by decide)
  exact ⟨T.1, T.2 (by decide)⟩
